import Mathlib

/-!
Verification of the task/workflow orchestration engine in
`pymatgen/io/abinitio/workflow.py` (classes `AbinitTask`, `Status`,
`TaskDependencies`, `Work`) against its natural-language specification.

The Python code is shallowly embedded: pure path computations become Lean
functions on `String`, the filesystem becomes an explicit state value,
Python exceptions become an `Except PyExc` result, and the externally
supplied hooks (setup/teardown, the subprocess call, the completeness
predicate, the GSR reader) become explicit parameters recording their
outcome.
-/

set_option autoImplicit false

/-- Model of Python exceptions raised by the code under study. -/
inductive PyExc where
  /-- `FileLock.Exception`: lock contention on acquire. -/
  | lockException
  /-- `NameError`: an undefined name was evaluated (carries the name). -/
  | nameError (name : String)
  /-- `NotImplementedError(msg)` raised explicitly. -/
  | notImplementedError (msg : String)
  /-- Any other exception (IOError, KeyError, a hook failure, ...). -/
  | genericError (msg : String)
deriving DecidableEq, Repr

/-- Whether an `Except` result is a normal return (no exception escaped). -/
def is_ok {ε α : Type} : Except ε α → Bool
  | Except.ok _ => true
  | Except.error _ => false

instance {ε α : Type} [DecidableEq ε] [DecidableEq α] : DecidableEq (Except ε α) := fun x y =>
  match x, y with
  | Except.ok a, Except.ok b =>
    if h : a = b then isTrue (by rw [h]) else isFalse (by simp [h])
  | Except.ok _, Except.error _ => isFalse (by simp)
  | Except.error _, Except.ok _ => isFalse (by simp)
  | Except.error e, Except.error f =>
    if h : e = f then isTrue (by rw [h]) else isFalse (by simp [h])

/-- Model of `os.path.join(a, b)` for a normalized absolute `a` (no trailing
separator, as produced by `os.path.abspath`) and a relative `b`. -/
def ospath_join (a b : String) : String := a ++ "/" ++ b

/-- `AbinitTask.prefix.idata = "in"`. -/
def pfx_idata : String := "in"

/-- `AbinitTask.prefix.odata = os.path.join("output", "out")`. -/
def pfx_odata : String := ospath_join "output" "out"

/-- `AbinitTask.prefix.tdata = os.path.join("temporary", "tmp")`. -/
def pfx_tdata : String := ospath_join "temporary" "tmp"

/-- `AbinitTask.basename.input = "run.input"`. -/
def basename_input : String := "run.input"

/-- `AbinitTask.basename.output = "run.output"`. -/
def basename_output : String := "run.output"

/-- `AbinitTask.basename.files_file = "run.files"`. -/
def basename_files_file : String := "run.files"

/-- `AbinitTask.basename.log_file = "log"`. -/
def basename_log_file : String := "log"

/-- `AbinitTask.basename.stderr_file = "stderr"`. -/
def basename_stderr_file : String := "stderr"

/-- `AbinitTask.basename.jobfile = "job.sh"`. -/
def basename_jobfile : String := "job.sh"

/-- `AbinitTask.basename.lockfile = "__lock__"`. -/
def basename_lockfile : String := "__lock__"

/-- `self.input_file = File(self.basename.input, dirname=self.workdir)`,
so `input_file.path = os.path.join(workdir, "run.input")`. -/
def input_file_path (workdir : String) : String :=
  ospath_join workdir basename_input

/-- `self.output_file = File(self.basename.output, dirname=self.workdir)`,
so `output_file.path = os.path.join(workdir, "run.output")`. -/
def output_file_path (workdir : String) : String :=
  ospath_join workdir basename_output

/-- `self.files_file = File(self.basename.files_file, dirname=self.workdir)`. -/
def files_file_path (workdir : String) : String :=
  ospath_join workdir basename_files_file

/-- `self.log_file = File(self.basename.log_file, dirname=self.workdir)`. -/
def log_file_path (workdir : String) : String :=
  ospath_join workdir basename_log_file

/-- `self.stderr_file = File(self.basename.stderr_file, dirname=self.workdir)`. -/
def stderr_file_path (workdir : String) : String :=
  ospath_join workdir basename_stderr_file

/-- `AbinitTask.jobfile_path = os.path.join(self.workdir, self.basename.jobfile)`. -/
def jobfile_path (workdir : String) : String :=
  ospath_join workdir basename_jobfile

/-- `AbinitTask.outfiles_dir`: `head, tail = os.path.split(self.prefix.odata)`
gives `head = "output"`, so the directory is `os.path.join(workdir, "output")`. -/
def outfiles_dir (workdir : String) : String := ospath_join workdir "output"

/-- `AbinitTask.tmpfiles_dir`: `os.path.split(self.prefix.tdata)` gives head
`"temporary"`, so the directory is `os.path.join(workdir, "temporary")`. -/
def tmpfiles_dir (workdir : String) : String := ospath_join workdir "temporary"

/-- `AbinitTask.odata_path_from_ext(ext)`:
`if ext[0] != "_": ext = "_" + ext; return os.path.join(self.workdir,
self.prefix.odata + ext)`.  Indexing `ext[0]` raises `IndexError` on the
empty string, modelled as `none`. -/
def odata_path_from_ext (workdir ext : String) : Option String :=
  match ext.data with
  | [] => none
  | c :: _ =>
    some (ospath_join workdir (pfx_odata ++ (if c = '_' then ext else "_" ++ ext)))

/-- The four status labels of class `Status` (`Status.levels`). -/
inductive StatusLevel where
  | completed
  | unstarted
  | running
  | error
deriving DecidableEq, Repr

/-- `Status.S_OK = 1`. -/
def S_OK : Nat := 1

/-- `Status.S_WAIT = 2`. -/
def S_WAIT : Nat := 2

/-- `Status.S_RUN = 4`. -/
def S_RUN : Nat := 4

/-- `Status.S_ERR = 8`. -/
def S_ERR : Nat := 8

/-- `Status._level2rank`: the rank table mapping each level string to its
severity rank. -/
def level2rank : StatusLevel → Nat
  | StatusLevel.completed => S_OK
  | StatusLevel.unstarted => S_WAIT
  | StatusLevel.running => S_RUN
  | StatusLevel.error => S_ERR

/-- `Status.__lt__(self, other)`: `self.rank < other.rank`.  All six rich
comparisons of `Status` are defined through `rank` alone. -/
def status_lt (a b : StatusLevel) : Prop := level2rank a < level2rank b

/-- The filesystem evidence about one task that `Status.__init__` inspects:
the external completeness predicate on the output file, existence of the
output/log/stderr files, whether `parse_ewc` found error messages in the
main output and in the log, and the lines of the stderr file. -/
structure TaskFsView where
  iscomplete : Bool
  output_exists : Bool
  log_exists : Bool
  main_errors : Bool
  log_errors : Bool
  stderr_exists : Bool
  stderr_lines : List String
deriving DecidableEq, Repr

/-- `Status.__init__(task)`: computes the level string.
1. if `task.iscomplete()` the level is `'completed'`;
2. elif both `task.output_file` and `task.log_file` exist, the level starts
   as `'running'`, becomes `'error'` if `main.errors or log.errors`, and the
   stderr file is then opened (raising `IOError` if absent) and a non-empty
   line list forces `'error'`;
3. else the level is `'unstarted'`. -/
def status_of (v : TaskFsView) : Except PyExc StatusLevel :=
  if v.iscomplete then
    Except.ok StatusLevel.completed
  else if v.output_exists && v.log_exists then
    if v.stderr_exists then
      let lvl := if v.main_errors || v.log_errors then StatusLevel.error
                 else StatusLevel.running
      Except.ok (if v.stderr_lines.isEmpty then lvl else StatusLevel.error)
    else
      Except.error (PyExc.genericError "IOError")
  else
    Except.ok StatusLevel.unstarted

/-- One step of Python's builtin `max`: keep the current value unless the
next item compares strictly greater; for `Status` the comparison
`__gt__` is `self.rank > other.rank`. -/
def lmax (cur x : StatusLevel) : StatusLevel :=
  if level2rank x > level2rank cur then x else cur

/-- Python's `max(status_list)` on a non-empty list with head `s` and tail
`ss`: a left fold of `lmax`. -/
def py_max (s : StatusLevel) (ss : List StatusLevel) : StatusLevel :=
  ss.foldl lmax s

/-- The list comprehension `[task.get_status() for task in self]` in
`Work.get_status`: an exception escaping any `Status.__init__` aborts the
whole comprehension. -/
def statuses_of : List TaskFsView → Except PyExc (List StatusLevel)
  | [] => Except.ok []
  | v :: vs =>
    match status_of v with
    | Except.error e => Except.error e
    | Except.ok s =>
      match statuses_of vs with
      | Except.error e => Except.error e
      | Except.ok ss => Except.ok (s :: ss)

/-- `Work.get_status(only_highest_rank=True)`: build the status list, then
return `max(status_list)`; Python's `max` raises `ValueError` on an empty
sequence. -/
def work_get_status_highest (views : List TaskFsView) : Except PyExc StatusLevel :=
  match statuses_of views with
  | Except.error e => Except.error e
  | Except.ok [] => Except.error (PyExc.genericError "ValueError")
  | Except.ok (s :: ss) => Except.ok (py_max s ss)

/-- The specification's batch-summary rule, written from the spec's words:
error if any task is in error, else running if any is running, else
unstarted if any is unstarted, else completed.  Used to compare the code's
`max`-based aggregation against the spec. -/
def batch_level (ss : List StatusLevel) : StatusLevel :=
  if ss.contains StatusLevel.error then StatusLevel.error
  else if ss.contains StatusLevel.running then StatusLevel.running
  else if ss.contains StatusLevel.unstarted then StatusLevel.unstarted
  else StatusLevel.completed

/-- The mutable part of an `AbinitTask` at run time: its working directory
and the `_return_code` attribute, which is absent until `run` assigns it. -/
structure AbinitTaskM where
  workdir : String
  ret_code : Option Int
deriving DecidableEq, Repr

/-- `AbinitTask.return_code`: returns `self._return_code`, or the sentinel
`666` when the attribute is absent (the `AttributeError` is caught). -/
def return_code (t : AbinitTaskM) : Int :=
  match t.ret_code with
  | some rc => rc
  | none => 666

/-- Outcomes of the external effects performed by one call of
`AbinitTask.run`: whether `lock.acquire()` succeeds (else it raises
`FileLock.Exception`), whether the `setup` hook raises, the result of
`subprocess.call` (exit code, or a raised exception if the launch fails),
and whether the `teardown` hook raises. -/
structure RunEnv where
  acquire_ok : Bool
  setup_exc : Option PyExc
  subprocess : Except PyExc Int
  teardown_exc : Option PyExc
deriving DecidableEq, Repr

/-- What a call of `AbinitTask.run` leaves behind: the task (with
`_return_code` possibly assigned), the returned exit code or the escaped
exception, and whether the task's lock file is still held. -/
structure RunOutcome where
  task : AbinitTaskM
  result : Except PyExc Int
  lock_held : Bool
deriving DecidableEq, Repr

/-- `AbinitTask.run`: acquires the lock (re-raising `FileLock.Exception` on
contention), calls `self.setup(...)`, assigns
`self._return_code = subprocess.call(...)`, calls `self.teardown(...)` only
when the exit code is `0`, then `lock.release()` and returns the exit code.
There is no `try`/`finally` around the body: an exception raised by
`setup`, by the subprocess launch, or by `teardown` escapes before
`lock.release()` is reached. -/
def AbinitTask.run (t : AbinitTaskM) (env : RunEnv) : RunOutcome :=
  if !env.acquire_ok then
    { task := t, result := Except.error PyExc.lockException, lock_held := false }
  else
    match env.setup_exc with
    | some e => { task := t, result := Except.error e, lock_held := true }
    | none =>
      match env.subprocess with
      | Except.error e => { task := t, result := Except.error e, lock_held := true }
      | Except.ok rc =>
        let t2 := { t with ret_code := some rc }
        if rc = 0 then
          match env.teardown_exc with
          | some e => { task := t2, result := Except.error e, lock_held := true }
          | none => { task := t2, result := Except.ok rc, lock_held := false }
        else
          { task := t2, result := Except.ok rc, lock_held := false }

/-- `Work.run` with the default `num_pythreads=1`: runs each task's `run`
in registration order; the first escaping exception aborts the loop. -/
def Work.run_seq : List (AbinitTaskM × RunEnv) → Except PyExc Unit
  | [] => Except.ok ()
  | (t, env) :: rest =>
    match (AbinitTask.run t env).result with
    | Except.error e => Except.error e
    | Except.ok _ => Work.run_seq rest

/-- Outcomes of the external effects performed by one call of `Work.start`:
the work-level lock acquisition, the `setup` hook, the tasks run by
`self.run(...)`, and the `teardown` hook. -/
structure StartEnv where
  acquire_ok : Bool
  setup_exc : Option PyExc
  task_runs : List (AbinitTaskM × RunEnv)
  teardown_exc : Option PyExc
deriving DecidableEq, Repr

/-- What a call of `Work.start` leaves behind. -/
structure StartOutcome where
  result : Except PyExc Unit
  lock_held : Bool
deriving DecidableEq, Repr

/-- `Work.start`: acquires the work-level lock on `__lock__` in the work's
directory, then `self.setup(...)`, `self.run(...)`, `self.teardown(...)`,
then `lock.release()`.  As in `AbinitTask.run` there is no `try`/`finally`:
any exception escaping the hooks or the task runs leaves the lock held. -/
def Work.start (env : StartEnv) : StartOutcome :=
  if !env.acquire_ok then
    { result := Except.error PyExc.lockException, lock_held := false }
  else
    match env.setup_exc with
    | some e => { result := Except.error e, lock_held := true }
    | none =>
      match Work.run_seq env.task_runs with
      | Except.error e => { result := Except.error e, lock_held := true }
      | Except.ok _ =>
        match env.teardown_exc with
        | some e => { result := Except.error e, lock_held := true }
        | none => { result := Except.ok (), lock_held := false }

/-- Python `dict` read `d[k]` on an insertion-ordered dictionary
represented as an association list: `none` models a `KeyError`. -/
def dict_get : List (String × String) → String → Option String
  | [], _ => none
  | (a, b) :: rest, k => if a = k then some b else dict_get rest k

/-- Python `dict` assignment `d[k] = v` on an insertion-ordered dictionary
represented as an association list: an existing key keeps its position and
gets the new value, a new key is appended at the end. -/
def dict_update : List (String × String) → String → String → List (String × String)
  | [], k, v => [(k, v)]
  | (a, b) :: rest, k, v =>
    if a = k then (k, v) :: rest else (a, b) :: dict_update rest k v

/-- `TaskDependencies._ext2getvars`: the fixed lookup table from output
extension tags to abinit input-variable names. -/
def _ext2getvars : List (String × String) :=
  [("DEN", "getden_path"),
   ("WFK", "getwfk_path"),
   ("SCR", "getscr_path"),
   ("QPS", "getqps_path")]

/-- A `TaskDependencies` value: the producing task (represented by its
working directory, through which `odata_path_from_ext` is computed), the
task id, and the requested `odata_required` tags. -/
structure TaskDeps where
  task_workdir : String
  task_id : Nat
  odata_required : List String
deriving DecidableEq, Repr

/-- `TaskDependencies.with_odata(*odata_required)`: a new descriptor for the
same task with the given tags. -/
def TaskDeps.with_odata (d : TaskDeps) (tags : List String) : TaskDeps :=
  { d with odata_required := tags }

/-- The loop of `TaskDependencies.get_varpaths`: for each requested `ext`,
`varname = self._ext2getvars[ext]` (a missing key raises `KeyError`),
`path = self.task.odata_path_from_ext(ext)` (an empty `ext` raises
`IndexError`), then `vars.update({varname: path})`. -/
def get_varpaths_go (w : String) :
    List String → List (String × String) → Except PyExc (List (String × String))
  | [], vars => Except.ok vars
  | ext :: rest, vars =>
    match dict_get _ext2getvars ext with
    | none => Except.error (PyExc.genericError "KeyError")
    | some varname =>
      match odata_path_from_ext w ext with
      | none => Except.error (PyExc.genericError "IndexError")
      | some path => get_varpaths_go w rest (dict_update vars varname path)

/-- `TaskDependencies.get_varpaths()`: starts from the empty dict. -/
def get_varpaths (d : TaskDeps) : Except PyExc (List (String × String)) :=
  get_varpaths_go d.task_workdir d.odata_required []

/-- The dependency-handling block of `Work.register_input`:
`varpaths = {}` followed by `varpaths.update(dep.get_varpaths())` for each
supplied dependency descriptor in order. -/
def register_varpaths_go (acc : List (String × String)) :
    List TaskDeps → Except PyExc (List (String × String))
  | [] => Except.ok acc
  | d :: ds =>
    match get_varpaths d with
    | Except.error e => Except.error e
    | Except.ok vp =>
      register_varpaths_go (vp.foldl (fun m p => dict_update m p.1 p.2) acc) ds

/-- The variable bindings `Work.register_input` resolves from its `depends`
argument and passes to the new task's constructor as `varpaths`. -/
def register_varpaths (deps : List TaskDeps) : Except PyExc (List (String × String)) :=
  register_varpaths_go [] deps

/-- `AbinitTask.to_dict`: its body is `raise NotimplementedError("")`.  The
name `NotimplementedError` is not defined anywhere (the Python builtin is
spelled `NotImplementedError`), so evaluating the `raise` statement raises
`NameError` for the undefined name instead. -/
def AbinitTask.to_dict (_t : AbinitTaskM) : Except PyExc (List (String × String)) :=
  Except.error (PyExc.nameError "NotimplementedError")

/-- `AbinitTask.from_dict(d)`: its body is likewise
`raise NotimplementedError("")` with the same undefined name. -/
def AbinitTask.from_dict (_d : List (String × String)) : Except PyExc AbinitTaskM :=
  Except.error (PyExc.nameError "NotimplementedError")

/-- An explicit filesystem state: the set of existing directories and a map
from file paths to file contents. -/
structure FS where
  dirs : List String
  files : List (String × String)
deriving DecidableEq, Repr

/-- Whether a directory exists. -/
def FS.dirExists (fs : FS) (d : String) : Bool := fs.dirs.contains d

/-- Whether a regular file exists. -/
def FS.fileExists (fs : FS) (p : String) : Bool := (dict_get fs.files p).isSome

/-- `os.path.exists(p)`: true for directories and files alike. -/
def FS.pexists (fs : FS) (p : String) : Bool := fs.dirExists p || fs.fileExists p

/-- `os.makedirs(d)` (called only when the directory is absent). -/
def FS.makedirs (fs : FS) (d : String) : FS := { fs with dirs := d :: fs.dirs }

/-- `open(p, "w").write(c)` / `File.write(c)`. -/
def FS.write (fs : FS) (p c : String) : FS :=
  { fs with files := dict_update fs.files p c }

/-- One `if not os.path.exists(d): os.makedirs(d)` block of
`AbinitTask.build`. -/
def FS.ensure_dir (fs : FS) (d : String) : FS :=
  if fs.pexists d then fs else fs.makedirs d

/-- One `if not <file>.exists: <file>.write(c)` block of `AbinitTask.build`
(`File.exists` is `os.path.exists(self.path)`). -/
def FS.ensure_file (fs : FS) (p c : String) : FS :=
  if fs.pexists p then fs else fs.write p c

/-- The per-task data `AbinitTask.build` writes: the working directory, the
text of the input object (`str(self.input)`), the rendered job script
(`str(self.jobfile)`), and the pseudopotential paths that go into
`filesfile_string`. -/
structure BuildTask where
  workdir : String
  input_str : String
  job_str : String
  pseudo_paths : List String
deriving DecidableEq, Repr

/-- `AbinitTask.filesfile_string`: the input-file path, the output-file
path, the three data prefixes under the working directory, then the paths
of the pseudopotential files, joined by newlines. -/
def filesfile_string (t : BuildTask) : String :=
  String.intercalate "\n"
    ([input_file_path t.workdir,
      output_file_path t.workdir,
      ospath_join t.workdir pfx_idata,
      ospath_join t.workdir pfx_odata,
      ospath_join t.workdir pfx_tdata] ++ t.pseudo_paths)

/-- `AbinitTask.build`: creates `workdir`, `outfiles_dir` and
`tmpfiles_dir` when absent, then writes the input file, the files file and
the job script, each only when `os.path.exists` is false for its path. -/
def task_build (t : BuildTask) (fs : FS) : FS :=
  (((((fs.ensure_dir t.workdir).ensure_dir
        (outfiles_dir t.workdir)).ensure_dir
        (tmpfiles_dir t.workdir)).ensure_file
        (input_file_path t.workdir) t.input_str).ensure_file
        (files_file_path t.workdir) (filesfile_string t)).ensure_file
        (jobfile_path t.workdir) t.job_str

/-- An entry of the array returned by `Work.get_etotal`: either the energy
read from the task's GSR file, or the `np.inf` sentinel. -/
inductive Etotal where
  | val (e : Int)
  | posInf
deriving DecidableEq, Repr

/-- The loop of `Work.get_etotal`: for each task in registration order,
open `task.odata_path_from_ext("GSR")` with `GSR_Reader` and read
`etotal`; the external read either yields a value (`some v`) or raises
(`none`), and the bare `except:` appends `np.inf` and continues. -/
def work_get_etotal : List (Option Int) → List Etotal
  | [] => []
  | g :: gs =>
    (match g with
     | some v => Etotal.val v
     | none => Etotal.posInf) :: work_get_etotal gs

/-- C2: if a task's output file passes the external completeness predicate,
`Status.__init__` assigns `'completed'`, regardless of error markers in the
log/output files and regardless of the stderr file's content: evaluation
step 1 dominates step 2 and the stderr override never overrides
`'completed'`. -/
theorem c2_completed_dominates (v : TaskFsView) (h : v.iscomplete = true) :
    status_of v = Except.ok StatusLevel.completed := by
  simp [status_of, h]

/-- Witness for C2: a fixture whose output file is complete, whose log has
error markers and whose stderr is non-empty still gets status completed. -/
theorem c2_completed_dominates_witness :
    status_of (TaskFsView.mk true true true true true true ["Segmentation fault"]) =
      Except.ok StatusLevel.completed :=
  c2_completed_dominates (TaskFsView.mk true true true true true true ["Segmentation fault"]) rfl

/-- C5 counterexample: the output file handle of a task with working
directory `/w` resolves to `/w/run.output`, not to `/w` joined with
`output/out` (which is the output-data prefix `prefix.odata`). -/
theorem c5_output_file_cex :
    output_file_path "/w" = "/w/run.output" ∧
    ¬ output_file_path "/w" = ospath_join "/w" pfx_odata := by
  constructor
  · rfl
  · decide

/-- C5 (amended): for every task, the output file handle resolves to the
path workdir joined with `run.output` (a top-level file); it is the
output-data prefix `prefix.odata`, not the output file, that resolves to
workdir joined with `output/out`. -/
theorem c5_output_file_layout (w : String) :
    output_file_path w = ospath_join w "run.output" ∧
    ospath_join w pfx_odata = ospath_join w "output/out" ∧
    pfx_odata = "output/out" :=
  ⟨rfl, rfl, rfl⟩

/-- C6: `Work.get_etotal` returns one entry per task in registration order:
the entry of a task whose GSR artifact cannot be read or parsed is the
positive-infinity sentinel, every other entry is the parsed value, and one
failure never aborts the aggregation of the remaining tasks. -/
theorem c6_get_etotal_aligned (gs : List (Option Int)) :
    (work_get_etotal gs).length = gs.length ∧
    (∀ k, gs.get? k = some none →
      (work_get_etotal gs).get? k = some Etotal.posInf) ∧
    (∀ k v, gs.get? k = some (some v) →
      (work_get_etotal gs).get? k = some (Etotal.val v)) := by
  induction gs with
  | nil =>
    refine ⟨rfl, ?_, ?_⟩
    · intro k h; cases k <;> simp at h
    · intro k v h; cases k <;> simp at h
  | cons g gs ih =>
    refine ⟨?_, ?_, ?_⟩
    · simp [work_get_etotal, ih.1]
    · intro k h
      cases k with
      | zero => simp at h; simp [work_get_etotal, h]
      | succ n => exact ih.2.1 n h
    · intro k v h
      cases k with
      | zero => simp at h; simp [work_get_etotal, h]
      | succ n => exact ih.2.2 n v h

/-- Witness for C6: three tasks whose middle GSR artifact is unreadable
yield a length-3 sequence with the sentinel exactly at position 1. -/
theorem c6_get_etotal_aligned_witness :
    (work_get_etotal [some 3, none, some 5]).length = 3 ∧
    (work_get_etotal [some 3, none, some 5]).get? 1 = some Etotal.posInf ∧
    (work_get_etotal [some 3, none, some 5]).get? 0 = some (Etotal.val 3) ∧
    (work_get_etotal [some 3, none, some 5]).get? 2 = some (Etotal.val 5) :=
  ⟨(c6_get_etotal_aligned [some 3, none, some 5]).1,
   (c6_get_etotal_aligned [some 3, none, some 5]).2.1 1 rfl,
   (c6_get_etotal_aligned [some 3, none, some 5]).2.2 0 3 rfl,
   (c6_get_etotal_aligned [some 3, none, some 5]).2.2 2 5 rfl⟩

/-- C8: registering a task with a single dependency descriptor on task A
requesting exactly the tag `DEN` resolves to exactly the one binding
`getden_path ↦ A.odata_path_from_ext("DEN")`, and no other binding. -/
theorem c8_register_den_single_binding (w : String) (i : Nat) :
    odata_path_from_ext w "DEN" = some (ospath_join w (pfx_odata ++ "_DEN")) ∧
    register_varpaths [(TaskDeps.mk w i []).with_odata ["DEN"]] =
      Except.ok [("getden_path", ospath_join w (pfx_odata ++ "_DEN"))] :=
  ⟨rfl, rfl⟩

/-- C9: serializing an `AbinitTask` with `to_dict` or rebuilding one with
`from_dict` never returns a value; but because of the misspelled name
`NotimplementedError` in both `raise` statements, the failure is a
`NameError` for the undefined name, not the intended
`NotImplementedError`. -/
theorem c9_to_dict_raises (t : AbinitTaskM) (d : List (String × String)) :
    AbinitTask.to_dict t = Except.error (PyExc.nameError "NotimplementedError") ∧
    AbinitTask.from_dict d = Except.error (PyExc.nameError "NotimplementedError") ∧
    PyExc.nameError "NotimplementedError" ≠ PyExc.notImplementedError "" :=
  ⟨rfl, rfl, by decide⟩

/-- Witness for C9 at a concrete task and dictionary. -/
theorem c9_to_dict_raises_witness :
    AbinitTask.to_dict (AbinitTaskM.mk "/w" none) =
      Except.error (PyExc.nameError "NotimplementedError") ∧
    AbinitTask.from_dict [] =
      Except.error (PyExc.nameError "NotimplementedError") ∧
    PyExc.nameError "NotimplementedError" ≠ PyExc.notImplementedError "" :=
  c9_to_dict_raises (AbinitTaskM.mk "/w" none) []

/-- C7: for a non-empty extension that does not begin with an underscore,
`odata_path_from_ext ext` and `odata_path_from_ext ("_" ++ ext)` are the
same path; in particular the paths for `GSR` and `_GSR` coincide, and the
function is a pure function of the working directory and the extension. -/
theorem c7_odata_ext_normalize (w ext : String) (c : Char) (cs : List Char)
    (h : ext.data = c :: cs) (hc : c ≠ '_') :
    odata_path_from_ext w ext = odata_path_from_ext w ("_" ++ ext) ∧
    odata_path_from_ext w "GSR" = odata_path_from_ext w "_GSR" := by
  constructor
  · obtain ⟨l⟩ := ext
    simp only [String.data] at h
    subst h
    show Option.some _ = Option.some _
    rw [if_neg hc, if_pos rfl]
  · rfl

/-- Witness for C7 at `ext = "GSR"`. -/
theorem c7_odata_ext_normalize_witness :
    odata_path_from_ext "/w" "GSR" = odata_path_from_ext "/w" "_GSR" :=
  (c7_odata_ext_normalize "/w" "GSR" 'G' ['S', 'R'] rfl (by decide)).1

/-- When `AbinitTask.run` returns normally, the exit code it returns is the
one it recorded in `_return_code`. -/
theorem run_records_exit_code (t : AbinitTaskM) (env : RunEnv) (rc : Int)
    (h : (AbinitTask.run t env).result = Except.ok rc) :
    (AbinitTask.run t env).task.ret_code = some rc := by
  rcases env with ⟨aok, sexc, sub, texc⟩
  cases aok with
  | false => simp [AbinitTask.run] at h
  | true =>
    cases sexc with
    | some e => simp [AbinitTask.run] at h
    | none =>
      rcases sub with e | rc2
      · simp [AbinitTask.run] at h
      · by_cases hrc : rc2 = 0
        · cases texc with
          | some e => simp [AbinitTask.run, hrc] at h
          | none =>
            simp [AbinitTask.run, hrc] at h ⊢
            exact h
        · simp [AbinitTask.run, hrc] at h ⊢
          exact h

/-- C10: a freshly constructed task, whose `_return_code` attribute has not
been assigned yet, reads `return_code` as the sentinel `666` (non-zero, so
never mistaken for success) instead of raising `AttributeError`; once
`run()` completes normally, `return_code` is the recorded subprocess exit
code. -/
theorem c10_return_code_sentinel (w : String) (t : AbinitTaskM) (env : RunEnv) (rc : Int) :
    return_code (AbinitTaskM.mk w none) = 666 ∧
    (666 : Int) ≠ 0 ∧
    ((AbinitTask.run t env).result = Except.ok rc →
      return_code (AbinitTask.run t env).task = rc) := by
  refine ⟨rfl, by decide, ?_⟩
  intro h
  rw [return_code, run_records_exit_code t env rc h]

/-- Witness for C10: before `run()` the sentinel is read; after a `run()`
that exits with code `7`, the property reads `7`. -/
theorem c10_return_code_sentinel_witness :
    return_code (AbinitTaskM.mk "/w" none) = 666 ∧
    return_code (AbinitTask.run (AbinitTaskM.mk "/w" none)
      (RunEnv.mk true none (Except.ok 7) none)).task = 7 :=
  ⟨(c10_return_code_sentinel "/w" (AbinitTaskM.mk "/w" none)
      (RunEnv.mk true none (Except.ok 7) none) 7).1,
   (c10_return_code_sentinel "/w" (AbinitTaskM.mk "/w" none)
      (RunEnv.mk true none (Except.ok 7) none) 7).2.2 rfl⟩

/-- C1 counterexample: with the lock successfully acquired and the `setup`
hook raising, `AbinitTask.run` propagates the exception while the lock is
still held, and likewise `Work.start`; the claimed release-on-every-exit-path
is false. -/
theorem c1_lock_leak_cex :
    (AbinitTask.run (AbinitTaskM.mk "/w" none)
      (RunEnv.mk true (some (PyExc.genericError "boom")) (Except.ok 0) none)).lock_held
      = true ∧
    (AbinitTask.run (AbinitTaskM.mk "/w" none)
      (RunEnv.mk true (some (PyExc.genericError "boom")) (Except.ok 0) none)).result
      = Except.error (PyExc.genericError "boom") ∧
    (Work.start (StartEnv.mk true (some (PyExc.genericError "boom")) [] none)).lock_held
      = true ∧
    (Work.start (StartEnv.mk true (some (PyExc.genericError "boom")) [] none)).result
      = Except.error (PyExc.genericError "boom") :=
  ⟨rfl, rfl, rfl, rfl⟩

/-- C1 (amended): `AbinitTask.run` and `Work.start` release their lock only
on the normal-return path.  Exactly when the lock was acquired and the call
does not return normally — the setup hook, the subprocess launch, a task
run, or the teardown hook raises — the exception reaches the caller with
the lock still held. -/
theorem c1_lock_release_only_normal (t : AbinitTaskM) (env : RunEnv) (senv : StartEnv) :
    (AbinitTask.run t env).lock_held
      = (env.acquire_ok && !(is_ok (AbinitTask.run t env).result)) ∧
    (Work.start senv).lock_held
      = (senv.acquire_ok && !(is_ok (Work.start senv).result)) := by
  constructor
  · rcases env with ⟨aok, sexc, sub, texc⟩
    cases aok with
    | false => simp [AbinitTask.run, is_ok]
    | true =>
      cases sexc with
      | some e => simp [AbinitTask.run, is_ok]
      | none =>
        rcases sub with e | rc
        · simp [AbinitTask.run, is_ok]
        · by_cases hrc : rc = 0
          · cases texc with
            | some e => simp [AbinitTask.run, is_ok, hrc]
            | none => simp [AbinitTask.run, is_ok, hrc]
          · simp [AbinitTask.run, is_ok, hrc]
  · rcases senv with ⟨aok, sexc, truns, texc⟩
    cases aok with
    | false => simp [Work.start, is_ok]
    | true =>
      cases sexc with
      | some e => simp [Work.start, is_ok]
      | none =>
        cases hrs : Work.run_seq truns with
        | error e => simp [Work.start, is_ok, hrs]
        | ok u =>
          cases texc with
          | some e => simp [Work.start, is_ok, hrs]
          | none => simp [Work.start, is_ok, hrs]

/-- Python's rank-based `max` over a non-empty status list computes exactly
the priority rule of the specification: error beats running beats unstarted
beats completed. -/
theorem py_max_eq_batch_level (ss : List StatusLevel) (s : StatusLevel) :
    py_max s ss = batch_level (s :: ss) := by
  induction ss generalizing s with
  | nil => cases s <;> rfl
  | cons x xs ih =>
    have step : py_max s (x :: xs) = py_max (lmax s x) xs := rfl
    rw [step, ih]
    cases s <;> cases x <;>
      simp [lmax, level2rank, S_OK, S_WAIT, S_RUN, S_ERR, batch_level,
        List.contains_cons]

/-- C3: for every non-empty work whose task statuses all evaluate,
`Work.get_status(only_highest_rank=True)` returns the status of maximal
severity rank: error if any task is in error, else running if any is
running, else unstarted if any is unstarted, else completed — under the
fixed rank table completed = 1, unstarted = 2, running = 4, error = 8. -/
theorem c3_highest_rank_status (views : List TaskFsView) (ss : List StatusLevel)
    (h : statuses_of views = Except.ok ss) (hne : ss ≠ []) :
    work_get_status_highest views = Except.ok (batch_level ss) ∧
    level2rank StatusLevel.completed = 1 ∧
    level2rank StatusLevel.unstarted = 2 ∧
    level2rank StatusLevel.running = 4 ∧
    level2rank StatusLevel.error = 8 := by
  rcases ss with _ | ⟨s, rest⟩
  · exact absurd rfl hne
  · refine ⟨?_, rfl, rfl, rfl, rfl⟩
    unfold work_get_status_highest
    rw [h]
    exact congrArg Except.ok (py_max_eq_batch_level rest s)

/-- Witness for C3: a work with one unstarted task and one task in error
(non-empty stderr) summarizes to error. -/
theorem c3_highest_rank_status_witness :
    work_get_status_highest
      [TaskFsView.mk false false false false false false [],
       TaskFsView.mk false true true false false true ["oops"]] =
      Except.ok (batch_level [StatusLevel.unstarted, StatusLevel.error]) ∧
    level2rank StatusLevel.completed = 1 ∧
    level2rank StatusLevel.unstarted = 2 ∧
    level2rank StatusLevel.running = 4 ∧
    level2rank StatusLevel.error = 8 :=
  c3_highest_rank_status
    [TaskFsView.mk false false false false false false [],
     TaskFsView.mk false true true false false true ["oops"]]
    [StatusLevel.unstarted, StatusLevel.error] rfl (List.cons_ne_nil _ _)

/-- Reading an updated dictionary: the assigned key yields the new value,
every other key is untouched. -/
theorem dict_get_update (d : List (String × String)) (k v q : String) :
    dict_get (dict_update d k v) q = if k = q then some v else dict_get d q := by
  induction d with
  | nil => simp [dict_update, dict_get]
  | cons p rest ih =>
    obtain ⟨a, b⟩ := p
    by_cases hak : a = k
    · subst hak
      by_cases hq : a = q <;> simp [dict_update, dict_get, hq]
    · by_cases hq : a = q
      · subst hq
        simp [dict_update, hak, dict_get]
        rw [if_neg (fun hkq => hak hkq.symm)]
      · simp [dict_update, hak, dict_get, hq, ih]

/-- `ensure_dir` keeps every existing path existing. -/
theorem ensure_dir_mono (fs : FS) (d a : String) (h : fs.pexists a = true) :
    (fs.ensure_dir d).pexists a = true := by
  unfold FS.ensure_dir
  split
  · exact h
  · simp [FS.pexists, FS.dirExists, FS.fileExists, FS.makedirs] at h ⊢
    tauto

/-- `ensure_file` keeps every existing path existing. -/
theorem ensure_file_mono (fs : FS) (p c a : String) (h : fs.pexists a = true) :
    (fs.ensure_file p c).pexists a = true := by
  unfold FS.ensure_file
  split
  · exact h
  · simp [FS.pexists, FS.dirExists, FS.fileExists, FS.write, dict_get_update] at h ⊢
    rcases h with h | h
    · exact Or.inl h
    · right
      by_cases hpa : p = a <;> simp [hpa, h]

/-- After `ensure_dir d`, the directory `d` exists. -/
theorem ensure_dir_pexists_self (fs : FS) (d : String) :
    (fs.ensure_dir d).pexists d = true := by
  unfold FS.ensure_dir
  split
  · assumption
  · simp [FS.pexists, FS.dirExists, FS.makedirs]

/-- After `ensure_file p c`, the path `p` exists. -/
theorem ensure_file_pexists_self (fs : FS) (p c : String) :
    (fs.ensure_file p c).pexists p = true := by
  unfold FS.ensure_file
  split
  · assumption
  · simp [FS.pexists, FS.dirExists, FS.fileExists, FS.write, dict_get_update]

/-- `ensure_dir` on an existing path is the identity. -/
theorem ensure_dir_id_of_exists (fs : FS) (d : String) (h : fs.pexists d = true) :
    fs.ensure_dir d = fs := by
  unfold FS.ensure_dir
  simp [h]

/-- `ensure_file` on an existing path is the identity. -/
theorem ensure_file_id_of_exists (fs : FS) (p c : String) (h : fs.pexists p = true) :
    fs.ensure_file p c = fs := by
  unfold FS.ensure_file
  simp [h]

/-- `ensure_dir` never touches file contents. -/
theorem ensure_dir_files (fs : FS) (d : String) :
    (fs.ensure_dir d).files = fs.files := by
  unfold FS.ensure_dir
  split <;> rfl

/-- `ensure_file` never changes the content of a file that already exists
(it writes only when `os.path.exists` is false, and a fresh key cannot
shadow an existing one). -/
theorem ensure_file_preserves (fs : FS) (p c q cq : String)
    (h : dict_get fs.files q = some cq) :
    dict_get (fs.ensure_file p c).files q = some cq := by
  unfold FS.ensure_file
  split
  · exact h
  · next hex =>
    show dict_get (dict_update fs.files p c) q = some cq
    rw [dict_get_update]
    have hpq : ¬ p = q := by
      intro hpq
      subst hpq
      simp [FS.pexists, FS.fileExists, h] at hex
    rw [if_neg hpq]
    exact h

/-- After `AbinitTask.build`, the working directory, both data
subdirectories, the input file, the files file and the job script all
exist. -/
theorem build_all_exist (t : BuildTask) (fs : FS) :
    (task_build t fs).pexists t.workdir = true ∧
    (task_build t fs).pexists (outfiles_dir t.workdir) = true ∧
    (task_build t fs).pexists (tmpfiles_dir t.workdir) = true ∧
    (task_build t fs).pexists (input_file_path t.workdir) = true ∧
    (task_build t fs).pexists (files_file_path t.workdir) = true ∧
    (task_build t fs).pexists (jobfile_path t.workdir) = true := by
  unfold task_build
  refine ⟨?_, ?_, ?_, ?_, ?_, ?_⟩
  · exact ensure_file_mono _ _ _ _ (ensure_file_mono _ _ _ _ (ensure_file_mono _ _ _ _
      (ensure_dir_mono _ _ _ (ensure_dir_mono _ _ _ (ensure_dir_pexists_self _ _)))))
  · exact ensure_file_mono _ _ _ _ (ensure_file_mono _ _ _ _ (ensure_file_mono _ _ _ _
      (ensure_dir_mono _ _ _ (ensure_dir_pexists_self _ _))))
  · exact ensure_file_mono _ _ _ _ (ensure_file_mono _ _ _ _ (ensure_file_mono _ _ _ _
      (ensure_dir_pexists_self _ _)))
  · exact ensure_file_mono _ _ _ _ (ensure_file_mono _ _ _ _ (ensure_file_pexists_self _ _ _))
  · exact ensure_file_mono _ _ _ _ (ensure_file_pexists_self _ _ _)
  · exact ensure_file_pexists_self _ _ _

/-- C4: `AbinitTask.build` is idempotent — a second call on the same task
returns the filesystem unchanged, so every file's content is identical to
the state after the first call — and it never overwrites any existing
file: any file present before the call keeps its exact content. -/
theorem c4_build_idempotent (t : BuildTask) (fs : FS) :
    task_build t (task_build t fs) = task_build t fs ∧
    (∀ q cq, dict_get fs.files q = some cq →
      dict_get (task_build t fs).files q = some cq) := by
  constructor
  · obtain ⟨h1, h2, h3, h4, h5, h6⟩ := build_all_exist t fs
    show (((((((task_build t fs).ensure_dir t.workdir).ensure_dir
        (outfiles_dir t.workdir)).ensure_dir
        (tmpfiles_dir t.workdir)).ensure_file
        (input_file_path t.workdir) t.input_str).ensure_file
        (files_file_path t.workdir) (filesfile_string t)).ensure_file
        (jobfile_path t.workdir) t.job_str) = task_build t fs
    rw [ensure_dir_id_of_exists _ _ h1, ensure_dir_id_of_exists _ _ h2,
        ensure_dir_id_of_exists _ _ h3, ensure_file_id_of_exists _ _ _ h4,
        ensure_file_id_of_exists _ _ _ h5, ensure_file_id_of_exists _ _ _ h6]
  · intro q cq h
    unfold task_build
    apply ensure_file_preserves
    apply ensure_file_preserves
    apply ensure_file_preserves
    rw [ensure_dir_files, ensure_dir_files, ensure_dir_files]
    exact h

/-- Witness for C4 at a concrete task and filesystem: a pre-existing input
file keeps its content and the second build changes nothing. -/
theorem c4_build_idempotent_witness :
    task_build (BuildTask.mk "/w" "inp" "job" [])
        (task_build (BuildTask.mk "/w" "inp" "job" [])
          (FS.mk [] [("/w/run.input", "old")])) =
      task_build (BuildTask.mk "/w" "inp" "job" [])
        (FS.mk [] [("/w/run.input", "old")]) ∧
    dict_get (task_build (BuildTask.mk "/w" "inp" "job" [])
        (FS.mk [] [("/w/run.input", "old")])).files "/w/run.input" = some "old" :=
  ⟨(c4_build_idempotent (BuildTask.mk "/w" "inp" "job" [])
      (FS.mk [] [("/w/run.input", "old")])).1,
   (c4_build_idempotent (BuildTask.mk "/w" "inp" "job" [])
      (FS.mk [] [("/w/run.input", "old")])).2 "/w/run.input" "old" rfl⟩
